import Mathlib

/-!
Shallow embedding of the METAR parser in `src/app.js` (`parseMETAR` and the
regular expressions it uses), together with theorems checking the
natural-language specification against it.

JavaScript semantics modelled explicitly:
- splitting a string on a single space keeps empty fields and never returns
  an empty array (splitting the empty string yields a one-element array
  holding the empty string): `jsSplitSpace`;
- a shift from an empty array returns undefined; a possibly-undefined string
  is modelled as an Option String;
- the test method of a regex coerces its argument to a string, so testing
  undefined tests the eight-letter string "undefined": `jsStr`;
- reading the length property of undefined throws a TypeError;
- a JS object is modelled as an association list of key/value pairs, in
  assignment order.
-/

namespace WxReader

/-- A JavaScript value as far as the typeof-string check can distinguish:
either a string, or one of the non-string kinds. -/
inductive JSValue where
  | str : String → JSValue
  | num : JSValue
  | boolVal : JSValue
  | nullVal : JSValue
  | undefinedVal : JSValue
  | objectVal : JSValue
deriving DecidableEq, Repr

/-- Whether the typeof of v is string. -/
def isString : JSValue → Bool
  | JSValue.str _ => true
  | _ => false

/-- The ways `parseMETAR` can throw: the explicit thrown errors whose message
starts with ERROR, and the implicit TypeError from reading a property of
undefined. -/
inductive JSError where
  | invalidInput : String → JSError
  | typeError : String → JSError
deriving DecidableEq, Repr

/-- The named capture groups of `timeRegex`. -/
structure Timestamp where
  dayOfMonth : String
  hours : String
  mins : String
  timezone : String
deriving DecidableEq, Repr

/-- The named capture groups of `windRegex`; `gustingSpeed` is `undefined`
(`none`) when the optional gust group does not participate in the match. -/
structure Wind where
  direction : String
  speed : String
  gustingSpeed : Option String
  speedUnits : String
deriving DecidableEq, Repr

/-- A value stored in the result object: a plain string, `undefined`
(from `shift()` on an empty array), or a capture-groups object. -/
inductive FieldVal where
  | str : String → FieldVal
  | undef : FieldVal
  | ts : Timestamp → FieldVal
  | wd : Wind → FieldVal
deriving DecidableEq, Repr

/-- The object returned by `parseMETAR`: the raw input under key `METAR` and
the accumulated record under key `parsedMETAR` (as an association list in
assignment order). -/
structure MetarResult where
  METAR : String
  parsedMETAR : List (String × FieldVal)
deriving DecidableEq, Repr

/-- String coercion of a possibly-undefined string, as the test method of a
JS regex performs on its argument. -/
def jsStr : Option String → String
  | some s => s
  | none => "undefined"

/-- Worker for `jsSplitSpace`: accumulates the current field (reversed). -/
def splitSpaceAux : List Char → List Char → List String
  | [], acc => [String.mk acc.reverse]
  | c :: rest, acc =>
    if c = ' ' then String.mk acc.reverse :: splitSpaceAux rest []
    else splitSpaceAux rest (c :: acc)

/-- Splitting of the input on every single space as JS does, keeping empty
fields; the result is never the empty array. -/
def jsSplitSpace (s : String) : List String :=
  splitSpaceAux s.data []

/-- Character class of a JS regex word character: A-Z, a-z, 0-9 or the
underscore. -/
def isWordChar (c : Char) : Bool :=
  c.isAlpha || c.isDigit || c == '_'

/-- Test of reportTypeRegex, the anchored alternation of the literals METAR
and SPECI. -/
def reportTypeTest (s : String) : Bool :=
  s == "METAR" || s == "SPECI"

/-- Test of modifierRegex, the anchored alternation of the literals AUTO and
COR. -/
def modifierTest (s : String) : Bool :=
  s == "AUTO" || s == "COR"

/-- Match against timeRegex: anchored two-digit dayOfMonth, two-digit hours,
two-digit mins and the literal Z timezone; some of the capture groups on a
full-string match, none otherwise. -/
def timeMatch (s : String) : Option Timestamp :=
  match s.data with
  | [d1, d2, h1, h2, m1, m2, z] =>
    if d1.isDigit && d2.isDigit && h1.isDigit && h2.isDigit && m1.isDigit
        && m2.isDigit && z == 'Z' then
      some ⟨String.mk [d1, d2], String.mk [h1, h2], String.mk [m1, m2], String.mk [z]⟩
    else none
  | _ => none

/-- Match against windRegex: anchored direction (the literal VBR — so spelled
in the source, not VRB — or three digits), two-digit speed, optional G plus
two-digit gustingSpeed, and two word characters of speedUnits. After the
fixed-width direction and speed, the anchored remainder matches either
exactly two word characters (no gust) or G, two digits and two word
characters. -/
def windMatch (s : String) : Option Wind :=
  match s.data with
  | d1 :: d2 :: d3 :: s1 :: s2 :: rest =>
    if ((d1 == 'V' && d2 == 'B' && d3 == 'R')
          || (d1.isDigit && d2.isDigit && d3.isDigit))
        && s1.isDigit && s2.isDigit then
      match rest with
      | [u1, u2] =>
        if isWordChar u1 && isWordChar u2 then
          some ⟨String.mk [d1, d2, d3], String.mk [s1, s2], none, String.mk [u1, u2]⟩
        else none
      | ['G', g1, g2, u1, u2] =>
        if g1.isDigit && g2.isDigit && isWordChar u1 && isWordChar u2 then
          some ⟨String.mk [d1, d2, d3], String.mk [s1, s2],
                some (String.mk [g1, g2]), String.mk [u1, u2]⟩
        else none
      | _ => none
    else none
  | _ => none

/-- Value assigned to the ICAO key: the shifted token, undefined when the
queue is empty. -/
def shiftVal : Option String → FieldVal
  | some s => FieldVal.str s
  | none => FieldVal.undef

/-- An optional plain-string field: present in the record exactly when the
guarding condition consumed a token. -/
def optField (k : String) : Option String → List (String × FieldVal)
  | some v => [(k, FieldVal.str v)]
  | none => []

/-- Timestamp entry of the record: the capture groups of timeRegex when its
test succeeds, absent otherwise. -/
def timestampField : Option Timestamp → List (String × FieldVal)
  | some t => [("timestamp", FieldVal.ts t)]
  | none => []

/-- Wind entry of the record: guarded by hasWind, the conjunction of a
positive token length and the windRegex test; on success the capture groups
of windRegex. -/
def windField (w : String) : List (String × FieldVal) :=
  if w.length > 0 && (windMatch w).isSome then
    match windMatch w with
    | some wd => [("wind", FieldVal.wd wd)]
    | none => []
  else []

/-- Lines 71-75: if `splitData.length > 0 && reportTypeRegex.test(splitData[0])`
then `result.reportType = splitData.shift()`. Returns the consumed token (if
any) and the remaining queue. -/
def stepReportType (toks : List String) : Option String × List String :=
  if toks.length > 0 && reportTypeTest (jsStr toks.head?) then (toks.head?, toks.tail)
  else (none, toks)

/-- Lines 106-110: if `splitData.length > 0 && modifierRegex.test(splitData[0])`
then `result.modifier = splitData.shift()`. -/
def stepModifier (toks : List String) : Option String × List String :=
  if toks.length > 0 && modifierTest (jsStr toks.head?) then (toks.head?, toks.tail)
  else (none, toks)

/-- The body of `parseMETAR` after the two initial checks, operating on the
token queue. The queue is consumed left to right: optional report type,
unconditional ICAO shift, unconditional time shift (`test` coerces a missing
token to the string `"undefined"`), optional modifier, then the wind shift.
Reading `wind.length` when the shift returned `undefined` throws a
`TypeError`. -/
def parseTokens (toks : List String) : Except JSError (List (String × FieldVal)) :=
  let s1 := stepReportType toks
  let icao := shiftVal s1.2.head?
  let t2 := s1.2.tail
  let t := timeMatch (jsStr t2.head?)
  let t3 := t2.tail
  let s4 := stepModifier t3
  match s4.2.head? with
  | none => Except.error (JSError.typeError
      "TypeError: Cannot read property length of undefined")
  | some w =>
    Except.ok (optField "reportType" s1.1 ++ [("ICAO", icao)] ++ timestampField t
      ++ optField "modifier" s4.1 ++ windField w)

/-- String path of parseMETAR (lines 63-173): split on spaces, the (dead)
zero-length check, then the sequential field consumption; on a normal return
the raw input is stored alongside the record. -/
def parseMETARstr (data : String) : Except JSError MetarResult :=
  let splitData := jsSplitSpace data
  if splitData.length = 0 then
    Except.error (JSError.invalidInput "ERROR: Invalid data length")
  else (parseTokens splitData).map (fun result => ⟨data, result⟩)

/-- Top-level parseMETAR (lines 56-174): the typeof-string check, then the
string path. -/
def parseMETAR : JSValue → Except JSError MetarResult
  | JSValue.str data => parseMETARstr data
  | _ => Except.error (JSError.invalidInput "ERROR: Invalid data; must be a string")


theorem stepReportType_len (toks : List String) :
    toks.length ≤ (stepReportType toks).2.length + 1 := by
  unfold stepReportType
  split
  · simp [List.length_tail]
    omega
  · simp

theorem stepModifier_len (toks : List String) :
    toks.length ≤ (stepModifier toks).2.length + 1 := by
  unfold stepModifier
  split
  · simp [List.length_tail]
    omega
  · simp

theorem parseTokens_ok_of_len (toks : List String) (h : 5 ≤ toks.length) :
    ∃ rec, parseTokens toks = Except.ok rec := by
  have h1 : 4 ≤ (stepReportType toks).2.length := by
    have := stepReportType_len toks; omega
  have h3 : 2 ≤ (stepReportType toks).2.tail.tail.length := by
    simp [List.length_tail]; omega
  have h4 : 1 ≤ (stepModifier (stepReportType toks).2.tail.tail).2.length := by
    have := stepModifier_len (stepReportType toks).2.tail.tail; omega
  cases hh : (stepModifier (stepReportType toks).2.tail.tail).2.head? with
  | none =>
    exfalso
    rw [List.head?_eq_none_iff] at hh
    rw [hh] at h4
    simp at h4
  | some w =>
    cases hp : parseTokens toks with
    | ok rec => exact ⟨rec, rfl⟩
    | error e =>
      exfalso
      simp only [parseTokens] at hp
      rw [hh] at hp
      simp at hp

theorem parseMETARstr_ok (data : String) (r : MetarResult)
    (h : parseMETARstr data = Except.ok r) :
    r.METAR = data ∧ parseTokens (jsSplitSpace data) = Except.ok r.parsedMETAR := by
  simp only [parseMETARstr] at h
  split at h
  · exact absurd h (by simp)
  · cases hp : parseTokens (jsSplitSpace data) with
    | error e => rw [hp] at h; simp [Except.map] at h
    | ok rec =>
      rw [hp] at h
      simp only [Except.map, Except.ok.injEq] at h
      subst h
      exact ⟨rfl, rfl⟩

theorem parseTokens_ok_shape (toks : List String) (rec : List (String × FieldVal))
    (h : parseTokens toks = Except.ok rec) :
    ∃ rt icao t md w,
      rec = optField "reportType" rt ++ [("ICAO", icao)] ++ timestampField t
        ++ optField "modifier" md ++ windField w := by
  simp only [parseTokens] at h
  split at h
  · exact absurd h (by simp)
  · rename_i w hw
    injection h with h
    exact ⟨_, _, _, _, w, h.symm⟩

theorem keys_optField (k : String) (v : Option String) :
    ∀ x ∈ (optField k v).map Prod.fst, x = k := by
  cases v <;> simp [optField]

theorem keys_timestampField (t : Option Timestamp) :
    ∀ x ∈ (timestampField t).map Prod.fst, x = "timestamp" := by
  cases t <;> simp [timestampField]

theorem keys_windField (w : String) :
    ∀ x ∈ (windField w).map Prod.fst, x = "wind" := by
  unfold windField
  split
  · split <;> simp
  · simp


/-- Claim C1 counterexample: the input "CYTZ 051900Z" is a string and
tokenizes to a non-empty token list, yet `parseMETAR` raises (a `TypeError`
from reading `.length` of the `undefined` returned by the wind-position
`shift()`), so the function does not always return a result object. -/
theorem C1_counterexample :
    (jsSplitSpace "CYTZ 051900Z").length ≠ 0 ∧
    parseMETAR (JSValue.str "CYTZ 051900Z") =
      Except.error (JSError.typeError
        "TypeError: Cannot read property length of undefined") :=
  ⟨by decide, rfl⟩

/-- Claim C1 (amended): once the input is a string whose token list has at
least five tokens (so a token is still left at the wind position after the at
most four earlier consumptions), `parseMETAR` always returns a result object
and never raises. -/
theorem C1_total_on_long_inputs (data : String)
    (h : 5 ≤ (jsSplitSpace data).length) :
    ∃ r, parseMETAR (JSValue.str data) = Except.ok r := by
  obtain ⟨rec, hrec⟩ := parseTokens_ok_of_len _ h
  refine ⟨⟨data, rec⟩, ?_⟩
  show parseMETARstr data = _
  simp only [parseMETARstr]
  rw [if_neg (by omega), hrec]
  rfl

/-- Witness for C1: a concrete five-token input on which the amended theorem
applies. -/
theorem C1_total_on_long_inputs_witness :
    5 ≤ (jsSplitSpace "METAR CYTZ 051900Z AUTO 17011KT").length ∧
    ∃ r, parseMETAR (JSValue.str "METAR CYTZ 051900Z AUTO 17011KT") = Except.ok r :=
  ⟨by decide, C1_total_on_long_inputs "METAR CYTZ 051900Z AUTO 17011KT" (by decide)⟩

/-- Claim C2 (code bug): the token "VRB11KT" is exactly of the claimed form
(literal variable marker VRB, 2-digit speed, 2-letter units), yet the record
gets no wind key, because windRegex spells the marker "VBR" — contradicting
the comment in the source, which documents "VRB" for variable; the transposed
token "VBR11KT" does match. -/
theorem C2_vrb_token_gets_no_wind_key :
    parseMETAR (JSValue.str "CYTZ 051900Z VRB11KT") =
      Except.ok ⟨"CYTZ 051900Z VRB11KT",
        [("ICAO", FieldVal.str "CYTZ"),
         ("timestamp", FieldVal.ts ⟨"05", "19", "00", "Z"⟩)]⟩ ∧
    windMatch "VRB11KT" = none ∧
    windMatch "VBR11KT" = some ⟨"VBR", "11", none, "KT"⟩ :=
  ⟨rfl, rfl, rfl⟩

/-- Claim C3 (code bug): the empty string and an all-whitespace string do not
fail with the InvalidInputError of the zero-length check (that guard is dead,
since splitting on a space never yields an empty array — it yields [""]);
instead the parse crashes later with a TypeError at the wind shift. -/
theorem C3_empty_input_crashes_with_type_error :
    jsSplitSpace "" = [""] ∧
    parseMETAR (JSValue.str "") =
      Except.error (JSError.typeError
        "TypeError: Cannot read property length of undefined") ∧
    parseMETAR (JSValue.str " ") =
      Except.error (JSError.typeError
        "TypeError: Cannot read property length of undefined") :=
  ⟨rfl, rfl, rfl⟩

/-- Claim C4: parsing "CYTZ 051900Z AUTO 17011KT" yields ICAO "CYTZ", the
decomposed timestamp, modifier "AUTO", a wind record with no gust, and no
reportType key. -/
theorem C4_example_no_report_type :
    parseMETAR (JSValue.str "CYTZ 051900Z AUTO 17011KT") =
      Except.ok ⟨"CYTZ 051900Z AUTO 17011KT",
        [("ICAO", FieldVal.str "CYTZ"),
         ("timestamp", FieldVal.ts ⟨"05", "19", "00", "Z"⟩),
         ("modifier", FieldVal.str "AUTO"),
         ("wind", FieldVal.wd ⟨"170", "11", none, "KT"⟩)]⟩ :=
  rfl

/-- Claim C5: a mismatched token in the mandatory date/time position is
consumed and discarded — "CYTZ BADTIME AUTO 17011KT" parses with no timestamp
key while the modifier and wind are still recognized. -/
theorem C5_badtime_consumed_and_discarded :
    parseMETAR (JSValue.str "CYTZ BADTIME AUTO 17011KT") =
      Except.ok ⟨"CYTZ BADTIME AUTO 17011KT",
        [("ICAO", FieldVal.str "CYTZ"),
         ("modifier", FieldVal.str "AUTO"),
         ("wind", FieldVal.wd ⟨"170", "11", none, "KT"⟩)]⟩ :=
  rfl

/-- Claim C6: "METAR CYTZ 051900Z 17011G20KT" parses with reportType "METAR"
and a wind record whose gustingSpeed is "20". -/
theorem C6_report_type_and_gust :
    parseMETAR (JSValue.str "METAR CYTZ 051900Z 17011G20KT") =
      Except.ok ⟨"METAR CYTZ 051900Z 17011G20KT",
        [("reportType", FieldVal.str "METAR"),
         ("ICAO", FieldVal.str "CYTZ"),
         ("timestamp", FieldVal.ts ⟨"05", "19", "00", "Z"⟩),
         ("wind", FieldVal.wd ⟨"170", "11", some "20", "KT"⟩)]⟩ :=
  rfl

/-- Claim C7: every non-string input fails immediately with the
InvalidInputError of the typeof check. -/
theorem C7_nonstring_rejected (v : JSValue) (h : isString v = false) :
    parseMETAR v = Except.error (JSError.invalidInput
      "ERROR: Invalid data; must be a string") := by
  cases v <;> first | rfl | simp [isString] at h

/-- Witness for C7: the claim applies to the JS value null. -/
theorem C7_nonstring_rejected_witness :
    isString JSValue.nullVal = false ∧
    parseMETAR JSValue.nullVal = Except.error (JSError.invalidInput
      "ERROR: Invalid data; must be a string") :=
  ⟨rfl, C7_nonstring_rejected JSValue.nullVal rfl⟩

/-- Claim C8: whenever `parseMETAR` returns on a string input, the raw string
stored under the METAR key of the result is the original input verbatim. -/
theorem C8_raw_string_round_trip (data : String) (r : MetarResult)
    (h : parseMETAR (JSValue.str data) = Except.ok r) :
    r.METAR = data :=
  (parseMETARstr_ok data r h).1

/-- Witness for C8 at a concrete input. -/
theorem C8_raw_string_round_trip_witness :
    (MetarResult.mk "CYTZ 051900Z AUTO 17011KT"
      [("ICAO", FieldVal.str "CYTZ"),
       ("timestamp", FieldVal.ts ⟨"05", "19", "00", "Z"⟩),
       ("modifier", FieldVal.str "AUTO"),
       ("wind", FieldVal.wd ⟨"170", "11", none, "KT"⟩)]).METAR =
      "CYTZ 051900Z AUTO 17011KT" :=
  C8_raw_string_round_trip "CYTZ 051900Z AUTO 17011KT" _ rfl

/-- Claim C9: `parseMETAR` is a pure function of its input and re-parsing the
raw string stored in a returned result reproduces that result exactly. -/
theorem C9_reparse_identical (data : String) (r : MetarResult)
    (h : parseMETAR (JSValue.str data) = Except.ok r) :
    parseMETAR (JSValue.str r.METAR) = Except.ok r := by
  rw [(parseMETARstr_ok data r h).1]
  exact h

/-- Witness for C9 at a concrete input. -/
theorem C9_reparse_identical_witness :
    parseMETAR (JSValue.str (MetarResult.mk "CYTZ 051900Z AUTO 17011KT"
      [("ICAO", FieldVal.str "CYTZ"),
       ("timestamp", FieldVal.ts ⟨"05", "19", "00", "Z"⟩),
       ("modifier", FieldVal.str "AUTO"),
       ("wind", FieldVal.wd ⟨"170", "11", none, "KT"⟩)]).METAR) =
      Except.ok (MetarResult.mk "CYTZ 051900Z AUTO 17011KT"
      [("ICAO", FieldVal.str "CYTZ"),
       ("timestamp", FieldVal.ts ⟨"05", "19", "00", "Z"⟩),
       ("modifier", FieldVal.str "AUTO"),
       ("wind", FieldVal.wd ⟨"170", "11", none, "KT"⟩)]) :=
  C9_reparse_identical "CYTZ 051900Z AUTO 17011KT" _ rfl

/-- Claim C10: whenever `parseMETAR` returns on a string input, the keys of
the parsedMETAR record are among reportType, ICAO, timestamp, modifier and
wind, and the ICAO key is always present (set unconditionally from whatever
token sits at the station position, with no validation). -/
theorem C10_keys_subset_and_icao (data : String) (r : MetarResult)
    (h : parseMETAR (JSValue.str data) = Except.ok r) :
    (∀ k ∈ r.parsedMETAR.map Prod.fst,
        k ∈ ["reportType", "ICAO", "timestamp", "modifier", "wind"]) ∧
    "ICAO" ∈ r.parsedMETAR.map Prod.fst := by
  obtain ⟨-, hpt⟩ := parseMETARstr_ok data r h
  obtain ⟨rt, icao, t, md, w, hshape⟩ := parseTokens_ok_shape _ _ hpt
  rw [hshape]
  constructor
  · intro k hk
    simp only [List.map_append, List.mem_append] at hk
    rcases hk with ((((hk | hk) | hk) | hk) | hk)
    · rw [keys_optField "reportType" rt k hk]; simp
    · simp at hk; simp [hk]
    · rw [keys_timestampField t k hk]; simp
    · rw [keys_optField "modifier" md k hk]; simp
    · rw [keys_windField w k hk]; simp
  · simp [List.map_append, List.mem_append]

/-- Witness for C10 at a concrete input. -/
theorem C10_keys_subset_and_icao_witness :
    (∀ k ∈ (MetarResult.mk "CYTZ 051900Z AUTO 17011KT"
      [("ICAO", FieldVal.str "CYTZ"),
       ("timestamp", FieldVal.ts ⟨"05", "19", "00", "Z"⟩),
       ("modifier", FieldVal.str "AUTO"),
       ("wind", FieldVal.wd ⟨"170", "11", none, "KT"⟩)]).parsedMETAR.map Prod.fst,
        k ∈ ["reportType", "ICAO", "timestamp", "modifier", "wind"]) ∧
    "ICAO" ∈ (MetarResult.mk "CYTZ 051900Z AUTO 17011KT"
      [("ICAO", FieldVal.str "CYTZ"),
       ("timestamp", FieldVal.ts ⟨"05", "19", "00", "Z"⟩),
       ("modifier", FieldVal.str "AUTO"),
       ("wind", FieldVal.wd ⟨"170", "11", none, "KT"⟩)]).parsedMETAR.map Prod.fst :=
  C10_keys_subset_and_icao "CYTZ 051900Z AUTO 17011KT" _ rfl

end WxReader
